import Mathlib

/-!
Shallow embedding of the manually written autograd Variable operations of
`torch/csrc/autograd/VariableTypeManual.cpp`.

Tensors are modelled as records carrying the definedness / variable-ness flags,
tensor options (backend, element type, device), an opaque storage payload
identifier, the storage version counter and the autograd metadata.  Fallible
operations return `Except AutogradError Tensor`; an error result means the call
failed before any externally visible mutation (all validation in the source
precedes the storage mutation, and the embedding mirrors that by returning no
tensor on the error path).

Helpers that the source file calls but that are declared outside it
(`compute_requires_grad`, `collect_next_edges`, `rebase_history`,
`increment_version`, `make_variable_view`, `shallow_copy_from`,
`isFloatingPoint`, the in-place safety checker and the shallow-copy-type
compatibility test) are modelled from the specification; each such definition
says so in its doc comment.  The in-place safety checker and the
shallow-copy-type compatibility test are external collaborators whose verdict
is opaque to this core, so they are passed in as boolean-valued parameters.
-/

namespace AutogradVariable

/-- Device index (which physical device a tensor or accumulator lives on). -/
abbrev Device := Nat

/-- Element scalar types: the closed enumeration of the tensor library. -/
inductive ScalarType where
  | uint8
  | int8
  | int16
  | int32
  | int64
  | boolean
  | half
  | float
  | double
  deriving DecidableEq, Repr

/-- Modelled from the spec: the element-type classification used by `copy_`;
`half`, `float` and `double` are the floating types. -/
def isFloatingPoint : ScalarType → Bool
  | .half => true
  | .float => true
  | .double => true
  | _ => false

/-- Tensor options: backend family, element type and device. -/
structure TensorOptions where
  backend : Nat
  dtype : ScalarType
  device : Device
  deriving DecidableEq, Repr

/-- Modelled from the spec: an edge points from a node to an upstream graph
position (gradient function or implicit accumulator, plus output slot), or is
an empty no-gradient edge. -/
structure Edge where
  has_fn : Bool
  output_nr : Nat
  deriving DecidableEq, Repr

/-- Gradient-function node.  `copyBackwards` is the dedicated node built by
`copy_`, carrying its predecessor edges and the saved source options and
device; `node` stands for any other graph node produced outside this core. -/
inductive GradFn where
  | copyBackwards (next_edges : List Edge) (src_options : TensorOptions) (src_device : Device)
  | node (id : Nat)
  deriving DecidableEq, Repr

/-- A materialized gradient accumulator; `input_device` is the device recorded
in its input metadata slot 0 (the device of the owning leaf when the
accumulator was materialized). -/
structure AccumulatorNode where
  input_device : Device
  deriving DecidableEq, Repr

/-- Per-variable autograd metadata.  `grad_accumulator = none` models a weak
reference that was never created or has expired. -/
structure AutogradMeta where
  grad_fn : Option GradFn
  output_nr : Nat
  requires_grad : Bool
  grad_accumulator : Option AccumulatorNode
  deriving DecidableEq, Repr

/-- A tensor handle: possibly undefined, possibly a plain (non-Variable)
tensor.  `data` is an opaque identifier for the storage contents, `version`
the storage mutation epoch, `meta` the autograd metadata (meaningful when
`is_variable` holds). -/
structure Tensor where
  defined : Bool
  is_variable : Bool
  is_view : Bool
  is_differentiable : Bool
  allow_tensor_metadata_change : Bool
  options : TensorOptions
  sizes : List Nat
  data : Nat
  version : Nat
  meta : AutogradMeta
  deriving DecidableEq, Repr

/-- The error surface of this core (spec section 7). -/
inductive AutogradError where
  | undefinedTensor (name : String) (pos : Nat)
  | notAVariable (name : String) (pos : Nat)
  | notAVariableAt (idx : Nat) (name : String) (pos : Nat)
  | incompatibleType
  | invalidOperation
  | viewSafety
  deriving DecidableEq, Repr

/-- The default-constructed undefined tensor handle, C++ `Tensor()`. -/
def Tensor.undefined : Tensor :=
  { defined := false
    is_variable := false
    is_view := false
    is_differentiable := false
    allow_tensor_metadata_change := true
    options := { backend := 0, dtype := .float, device := 0 }
    sizes := []
    data := 0
    version := 0
    meta := { grad_fn := none, output_nr := 0, requires_grad := false, grad_accumulator := none } }

/-- Modelled from the spec: a Variable requires gradients when its leaf flag is
set or when it was produced by a differentiable operation (non-null grad_fn). -/
def Tensor.requires_grad (t : Tensor) : Bool :=
  t.meta.requires_grad || t.meta.grad_fn.isSome

/-- The `type()` of a tensor: backend family together with element type
(device excluded), as compared by `set_data`. -/
def Tensor.type (t : Tensor) : Nat × ScalarType :=
  (t.options.backend, t.options.dtype)

/-- The current mutation epoch of the storage of a variable. -/
def current_version (t : Tensor) : Nat :=
  t.version

/-- Modelled from the spec: `increment_version` bumps the storage mutation
epoch by one. -/
def increment_version (t : Tensor) : Tensor :=
  { t with version := t.version + 1 }

/-- Modelled from the spec: `compute_requires_grad` is true when any input
requires gradient tracking. -/
def compute_requires_grad (vs : List Tensor) : Bool :=
  vs.any fun v => v.requires_grad

/-- Modelled from the spec: `collect_next_edges` produces, for each input that
requires gradient tracking, an edge to the graph position of that input, and
otherwise an empty no-gradient edge. -/
def collect_next_edges (vs : List Tensor) : List Edge :=
  vs.map fun v =>
    if v.requires_grad then { has_fn := true, output_nr := v.meta.output_nr }
    else { has_fn := false, output_nr := 0 }

/-- Modelled from the spec: `rebase_history` atomically replaces the pair of
grad_fn and output_nr with the new node and slot 0 when the node is non-null,
and is a no-op when it is null. -/
def rebase_history (t : Tensor) (gf : Option GradFn) : Tensor :=
  match gf with
  | none => t
  | some g => { t with meta := { t.meta with grad_fn := some g, output_nr := 0 } }

/-- `checked_cast_variable` from the source: rejects an undefined handle, then
a defined handle that is not a Variable, and otherwise returns the variable
reference.  Both error messages carry the argument name and position. -/
def checked_cast_variable (t : Tensor) (name : String) (pos : Nat) :
    Except AutogradError Tensor :=
  if t.defined = false then .error (.undefinedTensor name pos)
  else if t.is_variable = false then .error (.notAVariable name pos)
  else .ok t

/-- `unpack` (single-tensor form) from the source. -/
def unpack (t : Tensor) (name : String) (pos : Nat) : Except AutogradError Tensor :=
  checked_cast_variable t name pos

/-- `unpack_opt` from the source: an undefined handle is a legitimate absent
result rather than an error. -/
def unpack_opt (t : Tensor) (name : String) (pos : Nat) : Except AutogradError Tensor :=
  if t.defined = false then .ok Tensor.undefined
  else unpack t name pos

/-- Worker for the list form of `unpack`: walks the list with the absolute
element index, leaving undefined elements as the default-constructed tensor
and rejecting a defined element that is not a Variable. -/
def unpackListGo (name : String) (pos : Nat) : Nat → List Tensor → Except AutogradError (List Tensor)
  | _, [] => .ok []
  | i, t :: ts =>
    if t.defined = false then
      match unpackListGo name pos (i + 1) ts with
      | .error e => .error e
      | .ok rest => .ok (Tensor.undefined :: rest)
    else if t.is_variable = false then .error (.notAVariableAt i name pos)
    else
      match unpackListGo name pos (i + 1) ts with
      | .error e => .error e
      | .ok rest => .ok (t :: rest)

/-- `unpack` (tensor-list form) from the source. -/
def unpackList (tl : List Tensor) (name : String) (pos : Nat) :
    Except AutogradError (List Tensor) :=
  unpackListGo name pos 0 tl

/-- `is_leaf` from the source: true when the grad_fn of the variable is null. -/
def is_leaf (t : Tensor) : Bool :=
  t.meta.grad_fn = none

/-- `output_nr` from the source, embedded faithfully: the source line returns
the truth value of comparing the stored slot index against null (zero),
converted to an integer, rather than the stored index itself. -/
def output_nr (t : Tensor) : Int :=
  if t.meta.output_nr = 0 then 1 else 0

/-- Modelled from the spec: `TensorImpl::shallow_copy_from` replaces the
non-autograd fields (options, sizes, storage payload) of the destination with
those of the source, preserving the autograd metadata, the version counter
identity and the metadata-change flag of the destination. -/
def shallow_copy_from (dst src : Tensor) : Tensor :=
  { dst with options := src.options, sizes := src.sizes, data := src.data }

/-- `set_data` from the source.  `compat` is the external
shallow-copy-type compatibility test `_has_compatible_shallow_copy_type`,
passed in as an opaque collaborator.  After the compatibility check, the
gradient accumulator is reset when a materialized prior accumulator exists and
either the type of the new data differs from the type of the variable or the
device recorded by the prior accumulator differs from the device of the new
data; then the non-autograd fields are shallow-copied from the new data. -/
def set_data (compat : Tensor → Tensor → Bool) (self new_data : Tensor) :
    Except AutogradError Tensor :=
  if compat self new_data = false then .error .incompatibleType
  else
    .ok (shallow_copy_from
      { self with meta :=
          match self.meta.grad_accumulator with
          | none => self.meta
          | some prior =>
            if new_data.type ≠ self.type ∨ prior.input_device ≠ new_data.options.device then
              { self.meta with grad_accumulator := none }
            else self.meta }
      new_data)

/-- `copy_` from the source.  `inplace_ok` is the external in-place safety
checker (`check_inplace`), passed in as an opaque collaborator; its failure is
propagated before any mutation.  On success the storage payload is overwritten
from the source, the version is incremented after the storage copy, and the
history is rebased onto a `CopyBackwards` node exactly when gradient tracking
is required and the destination element type is floating. -/
def copy_ (inplace_ok : Tensor → Bool) (self src : Tensor) (non_blocking : Bool) :
    Except AutogradError Tensor :=
  match unpack self "self" 0 with
  | .error e => .error e
  | .ok selfU =>
    match unpack src "src" 1 with
    | .error e => .error e
    | .ok srcU =>
      if inplace_ok self = false then .error .viewSafety
      else
        .ok (rebase_history
          (increment_version { selfU with data := srcU.data })
          (if (compute_requires_grad [self, src] && isFloatingPoint self.options.dtype) = true
           then
             some (GradFn.copyBackwards (collect_next_edges [self, src])
               src.options src.options.device)
           else none))

/-- `resize_` from the source: unpack, then reject a variable that requires
gradients before the underlying storage resize. -/
def resize_ (self : Tensor) (size : List Nat) : Except AutogradError Tensor :=
  match unpack self "self" 0 with
  | .error e => .error e
  | .ok selfU =>
    if self.requires_grad = true then .error .invalidOperation
    else .ok { selfU with sizes := size }

/-- `resize_as_` from the source: unpack both arguments, then reject a variable
that requires gradients before the underlying resize to the template sizes. -/
def resize_as_ (self the_template : Tensor) : Except AutogradError Tensor :=
  match unpack self "self" 0 with
  | .error e => .error e
  | .ok selfU =>
    match unpack the_template "the_template" 1 with
    | .error e => .error e
    | .ok tmplU =>
      if self.requires_grad = true then .error .invalidOperation
      else .ok { selfU with sizes := tmplU.sizes }

/-- Modelled from the spec: `make_variable_view` (declared outside the source
file) creates a new view Variable sharing the storage of the base, with the
given differentiability mark, metadata-change permission and gradient edge;
the fresh metadata has the requires-grad flag clear and no accumulator. -/
def make_variable_view (base : Tensor) (is_differentiable : Bool)
    (allow_tensor_metadata_change : Bool) (gradient_edge : Option GradFn × Nat) : Tensor :=
  { base with
    defined := true
    is_variable := true
    is_view := true
    is_differentiable := is_differentiable
    allow_tensor_metadata_change := allow_tensor_metadata_change
    meta :=
      { grad_fn := gradient_edge.1
        output_nr := gradient_edge.2
        requires_grad := false
        grad_accumulator := none } }

/-- `detach` from the source: builds a non-differentiable, metadata-change
locked view of the input with an empty gradient edge and performs no mutation
of the input.  The first component of the result is the post-call state of the
input (the source writes nothing through it), the second the returned view. -/
def detach (self : Tensor) : Tensor × Tensor :=
  (self, make_variable_view self false false (none, 0))

/-- `detach_` from the source: rejects a view, otherwise clears the
requires-grad flag, resets grad_fn, and resets the output slot to 0, in place
on the metadata of the input. -/
def detach_ (self : Tensor) : Except AutogradError Tensor :=
  if self.is_view = true then .error .invalidOperation
  else
    let m0 := self.meta
    let m1 := { m0 with requires_grad := false }
    let m2 := { m1 with grad_fn := none }
    let m3 := { m2 with output_nr := 0 }
    .ok { self with meta := m3 }

/-! Concrete sample tensors used to exercise the operations. -/

/-- Float options on device 0. -/
def optsFloat0 : TensorOptions := { backend := 0, dtype := .float, device := 0 }

/-- Float options on device 1. -/
def optsFloat1 : TensorOptions := { backend := 0, dtype := .float, device := 1 }

/-- 64-bit integer options on device 0. -/
def optsLong0 : TensorOptions := { backend := 0, dtype := .int64, device := 0 }

/-- Metadata of a plain leaf that does not require gradients. -/
def metaPlain : AutogradMeta :=
  { grad_fn := none, output_nr := 0, requires_grad := false, grad_accumulator := none }

/-- A defined float Variable, not a view, not requiring gradients. -/
def varFloat : Tensor :=
  { defined := true
    is_variable := true
    is_view := false
    is_differentiable := true
    allow_tensor_metadata_change := true
    options := optsFloat0
    sizes := [2, 2]
    data := 7
    version := 3
    meta := metaPlain }

/-- A float Variable leaf that requires gradients. -/
def varFloatRG : Tensor :=
  { varFloat with meta := { metaPlain with requires_grad := true } }

/-- An integer-typed Variable with distinct storage payload. -/
def varInt : Tensor :=
  { varFloat with options := optsLong0, data := 11 }

/-- A Variable that is a view. -/
def viewVar : Tensor :=
  { varFloat with is_view := true }

/-- A defined tensor that is not a Variable. -/
def plainTensor : Tensor :=
  { varFloat with is_variable := false }

/-- A leaf Variable with a materialized gradient accumulator on device 0. -/
def varWithAcc : Tensor :=
  { varFloat with
    meta :=
      { metaPlain with
        requires_grad := true
        grad_accumulator := some { input_device := 0 } } }

/-- A float tensor living on device 1 with distinct storage payload. -/
def dataOnDev1 : Tensor :=
  { varFloat with options := optsFloat1, data := 9 }

/-- A Variable produced by some operation, stored at output slot 2. -/
def varSlot2 : Tensor :=
  { varFloat with meta := { metaPlain with output_nr := 2, grad_fn := some (.node 5) } }

/-! Helper lemmas shared by the claim theorems. -/

theorem unpack_eq_ok (t u : Tensor) (n : String) (p : Nat) :
    unpack t n p = .ok u ↔ t.defined = true ∧ t.is_variable = true ∧ u = t := by
  unfold unpack checked_cast_variable
  cases hd : t.defined <;> cases hv : t.is_variable <;> simp [eq_comm]

theorem compute_requires_grad_pair (a b : Tensor) :
    compute_requires_grad [a, b] = (a.requires_grad || b.requires_grad) := by
  simp [compute_requires_grad]

theorem rebase_history_version (t : Tensor) (g : Option GradFn) :
    (rebase_history t g).version = t.version := by
  cases g <;> rfl

theorem rebase_history_data (t : Tensor) (g : Option GradFn) :
    (rebase_history t g).data = t.data := by
  cases g <;> rfl

theorem unpackListGo_all_good (name : String) (pos : Nat) (k : Nat) (tl : List Tensor)
    (hall : ∀ t ∈ tl, t.defined = true → t.is_variable = true) :
    unpackListGo name pos k tl =
      .ok (tl.map fun t => if t.defined = true then t else Tensor.undefined) := by
  induction tl generalizing k with
  | nil => rfl
  | cons t ts ih =>
    have ht := hall t (List.mem_cons_self t ts)
    have hts : ∀ u ∈ ts, u.defined = true → u.is_variable = true :=
      fun u hu => hall u (List.mem_cons_of_mem t hu)
    cases hdef : t.defined with
    | false => simp [unpackListGo, hdef, ih (k + 1) hts]
    | true => simp [unpackListGo, hdef, ht hdef, ih (k + 1) hts]

theorem unpackListGo_first_bad (name : String) (pos : Nat) (k : Nat)
    (l1 : List Tensor) (t : Tensor) (l2 : List Tensor)
    (hall : ∀ u ∈ l1, u.defined = true → u.is_variable = true)
    (htd : t.defined = true) (htv : t.is_variable = false) :
    unpackListGo name pos k (l1 ++ t :: l2) =
      .error (.notAVariableAt (k + l1.length) name pos) := by
  induction l1 generalizing k with
  | nil => simp [unpackListGo, htd, htv]
  | cons u l1 ih =>
    have hu := hall u (List.mem_cons_self u l1)
    have hl1 : ∀ w ∈ l1, w.defined = true → w.is_variable = true :=
      fun w hw => hall w (List.mem_cons_of_mem u hw)
    have hrec := ih (k + 1) hl1
    have harith : k + 1 + l1.length = k + (l1.length + 1) := by omega
    cases hdef : u.defined with
    | false => simp [unpackListGo, hdef, hrec, harith]
    | true => simp [unpackListGo, hdef, hu hdef, hrec, harith]

/-! Claim theorems. -/

/-- C3: the source `output_nr` does not return the stored output slot index;
on a variable whose autograd metadata stores slot index 2 it evaluates to 0
(the integer value of a null comparison), contradicting the claimed contract
of returning the stored index. -/
theorem output_nr_bug_at_slot_two :
    output_nr varSlot2 = 0 ∧ varSlot2.meta.output_nr = 2 ∧ (0 : Int) ≠ 2 := by
  refine ⟨rfl, rfl, by decide⟩

/-- C9: `unpack` fails with the undefined-tensor error carrying the given
argument name and position when the handle is undefined, fails with the
not-a-variable error carrying them when the handle is defined but not a
Variable, and returns the handle unchanged when it is a defined Variable; in
particular, on an undefined handle with name "x" and position 0 it always
fails referencing exactly that name and position. -/
theorem unpack_validation_spec (t : Tensor) (name : String) (pos : Nat) :
    (t.defined = false → unpack t name pos = .error (.undefinedTensor name pos)) ∧
    (t.defined = true → t.is_variable = false →
      unpack t name pos = .error (.notAVariable name pos)) ∧
    (t.defined = true → t.is_variable = true → unpack t name pos = .ok t) ∧
    unpack Tensor.undefined "x" 0 = .error (.undefinedTensor "x" 0) := by
  refine ⟨?_, ?_, ?_, rfl⟩ <;> intros <;> simp_all [unpack, checked_cast_variable]

/-- C9 witness: the three cases exercised on concrete handles. -/
theorem unpack_validation_spec_witness :
    unpack Tensor.undefined "x" 0 = .error (.undefinedTensor "x" 0) ∧
    unpack plainTensor "y" 1 = .error (.notAVariable "y" 1) ∧
    unpack varFloat "z" 2 = .ok varFloat :=
  ⟨(unpack_validation_spec Tensor.undefined "x" 0).1 rfl,
   (unpack_validation_spec plainTensor "y" 1).2.1 rfl rfl,
   (unpack_validation_spec varFloat "z" 2).2.2.1 rfl rfl⟩

/-- C7: in-place detach fails with InvalidOperation on a view (the error path
returns no updated tensor, so the metadata of the input is untouched), and on
a non-view succeeds with the requires-grad flag cleared, grad_fn null and the
output slot reset to 0, all on the own metadata of the input, with storage
payload, sizes, version and accumulator untouched. -/
theorem detach_inplace_spec (self : Tensor) :
    (self.is_view = true → detach_ self = .error .invalidOperation) ∧
    (self.is_view = false → ∃ r, detach_ self = .ok r ∧
      r.meta.requires_grad = false ∧ r.meta.grad_fn = none ∧ r.meta.output_nr = 0 ∧
      r.meta.grad_accumulator = self.meta.grad_accumulator ∧
      r.data = self.data ∧ r.version = self.version ∧ r.sizes = self.sizes ∧
      r.is_view = self.is_view) := by
  constructor
  · intro h
    simp [detach_, h]
  · intro h
    refine ⟨{ self with meta :=
      { self.meta with requires_grad := false, grad_fn := none, output_nr := 0 } },
      ?_, rfl, rfl, rfl, rfl, rfl, rfl, rfl, rfl⟩
    simp [detach_, h]

/-- C7 witness: a view is rejected, a non-view leaf is detached in place. -/
theorem detach_inplace_spec_witness :
    detach_ viewVar = .error .invalidOperation ∧
    (∃ r, detach_ varSlot2 = .ok r ∧
      r.meta.requires_grad = false ∧ r.meta.grad_fn = none ∧ r.meta.output_nr = 0 ∧
      r.meta.grad_accumulator = varSlot2.meta.grad_accumulator ∧
      r.data = varSlot2.data ∧ r.version = varSlot2.version ∧ r.sizes = varSlot2.sizes ∧
      r.is_view = varSlot2.is_view) :=
  ⟨(detach_inplace_spec viewVar).1 rfl, (detach_inplace_spec varSlot2).2 rfl⟩

/-- C8: `detach` never mutates its input (the post-call input is the input
itself: version counter, grad_fn and requires-grad flag unchanged), and the
result is a new view sharing the storage of the input, with grad_fn null,
requires-grad false, marked non-differentiable and metadata-change locked. -/
theorem detach_frame_and_result (self : Tensor) :
    (detach self).1 = self ∧
    current_version (detach self).1 = current_version self ∧
    (detach self).1.meta.grad_fn = self.meta.grad_fn ∧
    Tensor.requires_grad (detach self).1 = Tensor.requires_grad self ∧
    (detach self).2.is_view = true ∧
    (detach self).2.data = self.data ∧
    (detach self).2.version = self.version ∧
    (detach self).2.meta.grad_fn = none ∧
    Tensor.requires_grad (detach self).2 = false ∧
    (detach self).2.is_differentiable = false ∧
    (detach self).2.allow_tensor_metadata_change = false :=
  ⟨rfl, rfl, rfl, rfl, rfl, rfl, rfl, rfl, rfl, rfl, rfl⟩

/-- C4: `set_data` on arguments whose shallow-copy types are incompatible
fails with the incompatible-type error; the compatibility check is the first
step of the operation, so the failing call performs no metadata, autograd or
accumulator update and returns no modified tensor. -/
theorem set_data_incompatible_spec (compat : Tensor → Tensor → Bool) (self d : Tensor)
    (h : compat self d = false) :
    set_data compat self d = .error .incompatibleType := by
  simp [set_data, h]

/-- C4 witness: a concrete incompatible pair is rejected. -/
theorem set_data_incompatible_spec_witness :
    set_data (fun _ _ => false) varFloat dataOnDev1 = .error .incompatibleType :=
  set_data_incompatible_spec (fun _ _ => false) varFloat dataOnDev1 rfl

/-- C5: a compatible `set_data` call succeeds, and the gradient accumulator of
the result is: absent when none was materialized; reset to absent exactly when
a materialized prior accumulator exists and the type of the new data differs
from the type of the variable or the device recorded by the prior accumulator
(the prior device of the variable) differs from the device of the new data;
and kept otherwise.  In particular an accumulator materialized on one device
is always reset when the new data lives on a different device. -/
theorem set_data_accumulator_reset_spec (compat : Tensor → Tensor → Bool) (self d : Tensor)
    (hc : compat self d = true) :
    ∃ r, set_data compat self d = .ok r ∧
      r.meta.grad_accumulator =
        (match self.meta.grad_accumulator with
         | none => none
         | some acc =>
           if d.type ≠ self.type ∨ acc.input_device ≠ d.options.device then none
           else some acc) ∧
      r.options = d.options := by
  simp only [set_data, hc]
  cases hacc : self.meta.grad_accumulator with
  | none => simp [hacc, shallow_copy_from]
  | some acc =>
    by_cases hcond : d.type ≠ self.type ∨ acc.input_device ≠ d.options.device
    · simp [hacc, hcond, shallow_copy_from]
    · simp [hacc, hcond, shallow_copy_from]

/-- C5 witness: an accumulator materialized on device 0 is reset by new data
living on device 1. -/
theorem set_data_accumulator_reset_spec_witness :
    ∃ r, set_data (fun _ _ => true) varWithAcc dataOnDev1 = .ok r ∧
      r.meta.grad_accumulator =
        (match varWithAcc.meta.grad_accumulator with
         | none => none
         | some acc =>
           if dataOnDev1.type ≠ varWithAcc.type ∨
              acc.input_device ≠ dataOnDev1.options.device then none
           else some acc) ∧
      r.options = dataOnDev1.options :=
  set_data_accumulator_reset_spec (fun _ _ => true) varWithAcc dataOnDev1 rfl

/-- C6: on defined Variable arguments, `resize_` and `resize_as_` fail with
InvalidOperation exactly when the variable requires gradients at call time,
and otherwise succeed changing only the sizes, so the autograd metadata (in
particular grad_fn) is never altered; the failing call returns no tensor, the
check preceding the underlying resize. -/
theorem resize_requires_grad_spec (self tmpl : Tensor) (size : List Nat)
    (hd : self.defined = true) (hv : self.is_variable = true)
    (htd : tmpl.defined = true) (htv : tmpl.is_variable = true) :
    resize_ self size =
      (if self.requires_grad = true then .error .invalidOperation
       else .ok { self with sizes := size }) ∧
    resize_as_ self tmpl =
      (if self.requires_grad = true then .error .invalidOperation
       else .ok { self with sizes := tmpl.sizes }) := by
  constructor <;>
    simp [resize_, resize_as_, unpack, checked_cast_variable, hd, hv, htd, htv]

/-- C6 witness: a gradient-requiring variable is rejected by both operations,
a plain variable is resized by both. -/
theorem resize_requires_grad_spec_witness :
    (resize_ varFloatRG [3] =
      (if varFloatRG.requires_grad = true then .error .invalidOperation
       else .ok { varFloatRG with sizes := [3] }) ∧
     resize_as_ varFloatRG varFloat =
      (if varFloatRG.requires_grad = true then .error .invalidOperation
       else .ok { varFloatRG with sizes := varFloat.sizes })) ∧
    (resize_ varFloat [3] =
      (if varFloat.requires_grad = true then .error .invalidOperation
       else .ok { varFloat with sizes := [3] }) ∧
     resize_as_ varFloat varInt =
      (if varFloat.requires_grad = true then .error .invalidOperation
       else .ok { varFloat with sizes := varInt.sizes })) :=
  ⟨resize_requires_grad_spec varFloatRG varFloat [3] rfl rfl rfl rfl,
   resize_requires_grad_spec varFloat varInt [3] rfl rfl rfl rfl⟩

/-- C1: a `copy_` call on valid Variable arguments that passes the in-place
safety check succeeds, and the metadata of the destination afterwards carries
a freshly built CopyBackwards node (with the collected next edges and the
saved source options and device, at output slot 0) exactly when the
destination or the source requires gradients and the element type of the
destination is floating; otherwise the metadata, in particular grad_fn, is
unchanged from before the call. -/
theorem copy_grad_fn_iff (inplace_ok : Tensor → Bool) (self src : Tensor) (nb : Bool)
    (hd : self.defined = true) (hv : self.is_variable = true)
    (hsd : src.defined = true) (hsv : src.is_variable = true)
    (hok : inplace_ok self = true) :
    ∃ r, copy_ inplace_ok self src nb = .ok r ∧
      r.meta =
        (if ((self.requires_grad || src.requires_grad) &&
              isFloatingPoint self.options.dtype) = true
         then
           { self.meta with
             grad_fn := some (GradFn.copyBackwards (collect_next_edges [self, src])
               src.options src.options.device)
             output_nr := 0 }
         else self.meta) := by
  have hpair := compute_requires_grad_pair self src
  by_cases hcond : ((self.requires_grad || src.requires_grad) &&
      isFloatingPoint self.options.dtype) = true
  · refine ⟨{ self with
      data := src.data
      version := self.version + 1
      meta := { self.meta with
        grad_fn := some (GradFn.copyBackwards (collect_next_edges [self, src])
          src.options src.options.device)
        output_nr := 0 } }, ?_, ?_⟩
    · simp [copy_, unpack, checked_cast_variable, hd, hv, hsd, hsv, hok, hpair, hcond,
        increment_version, rebase_history]
    · simp [hcond]
  · refine ⟨{ self with
      data := src.data
      version := self.version + 1 }, ?_, ?_⟩
    · simp [copy_, unpack, checked_cast_variable, hd, hv, hsd, hsv, hok, hpair, hcond,
        increment_version, rebase_history]
    · simp [hcond]

/-- C1 witness: copying a gradient-requiring float source into a float
destination through a passing safety check. -/
theorem copy_grad_fn_iff_witness :
    ∃ r, copy_ (fun _ => true) varFloat varFloatRG true = .ok r ∧
      r.meta =
        (if ((varFloat.requires_grad || varFloatRG.requires_grad) &&
              isFloatingPoint varFloat.options.dtype) = true
         then
           { varFloat.meta with
             grad_fn := some (GradFn.copyBackwards (collect_next_edges [varFloat, varFloatRG])
               varFloatRG.options varFloatRG.options.device)
             output_nr := 0 }
         else varFloat.meta) :=
  copy_grad_fn_iff (fun _ => true) varFloat varFloatRG true rfl rfl rfl rfl rfl

/-- C2: every successful `copy_` call bumps the current version of the
destination storage by exactly 1, the increment being applied to the tensor
that already holds the copied source payload (the increment follows the
storage copy); a call rejected by the in-place safety check, reached only
after both arguments validate, fails before any mutation and returns no
tensor. -/
theorem copy_version_spec (inplace_ok : Tensor → Bool) (self src : Tensor) (nb : Bool) :
    (∀ r, copy_ inplace_ok self src nb = .ok r →
      current_version r = current_version self + 1 ∧ r.data = src.data) ∧
    (self.defined = true → self.is_variable = true → src.defined = true →
      src.is_variable = true → inplace_ok self = false →
      copy_ inplace_ok self src nb = .error .viewSafety) := by
  constructor
  · intro r h
    unfold copy_ at h
    split at h
    · simp at h
    next selfU heq =>
      split at h
      · simp at h
      next srcU heq2 =>
        obtain ⟨hd, hv, rfl⟩ := (unpack_eq_ok self selfU "self" 0).mp heq
        obtain ⟨hsd, hsv, rfl⟩ := (unpack_eq_ok src srcU "src" 1).mp heq2
        split at h
        · simp at h
        · simp only [Except.ok.injEq] at h
          subst h
          constructor
          · simp [current_version, rebase_history_version, increment_version]
          · simp [rebase_history_data, increment_version]
  · intro hd hv hsd hsv hok
    simp [copy_, unpack, checked_cast_variable, hd, hv, hsd, hsv, hok]

/-- C2 witness: a concrete successful copy bumps the version from 3 to 4 and
installs the source payload; a concrete rejected copy fails with the view
safety error. -/
theorem copy_version_spec_witness :
    (current_version { varFloat with data := 11, version := 4 } =
        current_version varFloat + 1 ∧
      ({ varFloat with data := 11, version := 4 } : Tensor).data = varInt.data) ∧
    copy_ (fun _ => false) varFloat varInt false = .error .viewSafety :=
  ⟨(copy_version_spec (fun _ => true) varFloat varInt false).1
      { varFloat with data := 11, version := 4 } rfl,
   (copy_version_spec (fun _ => false) varFloat varInt false).2 rfl rfl rfl rfl rfl⟩

/-- C10: the list form of `unpack` maps a list whose defined elements are all
Variables to the same-length, same-order list in which every undefined element
is passed through as the undefined tensor and every defined element is
returned unchanged; and it fails with the not-a-variable error, carrying the
element index, as soon as an element is defined but not a Variable (every
earlier element being acceptable). -/
theorem unpack_list_spec (tl : List Tensor) (name : String) (pos : Nat) :
    ((∀ t ∈ tl, t.defined = true → t.is_variable = true) →
      unpackList tl name pos =
        .ok (tl.map fun t => if t.defined = true then t else Tensor.undefined)) ∧
    (∀ l1 t l2, tl = l1 ++ t :: l2 →
      (∀ u ∈ l1, u.defined = true → u.is_variable = true) →
      t.defined = true → t.is_variable = false →
      unpackList tl name pos = .error (.notAVariableAt l1.length name pos)) := by
  constructor
  · intro h
    exact unpackListGo_all_good name pos 0 tl h
  · intro l1 t l2 htl h1 htd htv
    subst htl
    simpa using unpackListGo_first_bad name pos 0 l1 t l2 h1 htd htv

/-- C10 witness: a mixed list with an undefined hole passes through, a list
whose second element is a defined non-Variable fails at index 1. -/
theorem unpack_list_spec_witness :
    unpackList [varFloat, Tensor.undefined, varInt] "xs" 0 =
      .ok ([varFloat, Tensor.undefined, varInt].map
        fun t => if t.defined = true then t else Tensor.undefined) ∧
    unpackList [Tensor.undefined, plainTensor] "ys" 1 =
      .error (.notAVariableAt 1 "ys" 1) :=
  ⟨(unpack_list_spec [varFloat, Tensor.undefined, varInt] "xs" 0).1 (by decide),
   (unpack_list_spec [Tensor.undefined, plainTensor] "ys" 1).2
     [Tensor.undefined] plainTensor [] rfl (by decide) rfl rfl⟩

end AutogradVariable
